import Mathlib

/-!
Verification of the data-model validation rules of the admin-panel
repository (`app/models.py`).  The source file consists of SQLModel
entity declarations and request schemas; the executable content is the
set of field constraints (regular expressions, length bounds, numeric
ranges, defaults).  Each constraint is embedded here as an executable
Lean definition, translated directly from the declaration in the
source.  Logic the source only declares fields for (session
validation, password-mismatch rejection) is modelled from the spec and
marked as such in its doc comment.
-/

namespace AdminPanel

/-! ## Character classes used by the regex constraints in models.py -/

/-- `[a-z]` -/
def isLowerAlpha (c : Char) : Bool := 'a' ≤ c && c ≤ 'z'

/-- `[A-Z]` -/
def isUpperAlpha (c : Char) : Bool := 'A' ≤ c && c ≤ 'Z'

/-- `[0-9]` -/
def isDigitCh (c : Char) : Bool := '0' ≤ c && c ≤ '9'

/-- `[A-Za-z]` -/
def isAlphaCh (c : Char) : Bool := isLowerAlpha c || isUpperAlpha c

/-! ## System-user username pattern

`SystemUserCreate.username` (models.py line 226) and
`SystemUser.username` (line 75) carry
`max_length=32, regex=r"^[a-z_][a-z0-9_-]*[$]?$"`. -/

/-- The leading character class `[a-z_]` of the OS-username regex. -/
def sysNameHead (c : Char) : Bool := isLowerAlpha c || c = '_'

/-- The body character class `[a-z0-9_-]` of the OS-username regex. -/
def sysNameBody (c : Char) : Bool :=
  isLowerAlpha c || isDigitCh c || c = '_' || c = '-'

/-- Matcher for the suffix `[a-z0-9_-]*[$]?$`: body characters, then an
optional single final dollar sign.  `'$'` is not in the body class, so
the regex is deterministic and this recursion is exact. -/
def sysNameTail : List Char → Bool
  | [] => true
  | c :: cs => if sysNameBody c then sysNameTail cs else (c = '$' && cs = [])

/-- Matcher for the full regex `^[a-z_][a-z0-9_-]*[$]?$`. -/
def sysUsernameMatches (s : String) : Bool :=
  match s.toList with
  | [] => false
  | c :: cs => sysNameHead c && sysNameTail cs

/-- Acceptance of `SystemUserCreate.username`: the `max_length=32`
bound together with the regex (models.py line 226). -/
def systemUserCreateUsernameOk (s : String) : Bool :=
  s.length ≤ 32 && sysUsernameMatches s

/-! ## Service action pattern

`ServiceActionRequest.action` (models.py line 248) carries
`regex=r"^(start|stop|restart|enable|disable)$"`, an anchored
alternation of five literals. -/

/-- The five literals of the service-action regex alternation. -/
def serviceActions : List String :=
  ["start", "stop", "restart", "enable", "disable"]

/-- Matcher for `^(start|stop|restart|enable|disable)$`: an anchored
alternation of literals accepts exactly the listed strings. -/
def serviceActionMatches (a : String) : Bool := serviceActions.contains a

/-- Modelled from the spec: the validation layer rejects an action
outside the enumerated set as `UnknownAction` rather than passing it
through (spec section 4.3); the source only declares the regex. -/
inductive ServiceActionError where
  | unknownAction : ServiceActionError
deriving DecidableEq

/-- Validation of `ServiceActionRequest.action`: the regex decides
acceptance; a rejected string surfaces as `UnknownAction`. -/
def validateServiceAction (a : String) : Except ServiceActionError String :=
  if serviceActionMatches a then Except.ok a
  else Except.error ServiceActionError.unknownAction

/-! ## Admin-panel user creation

`AdminUserCreate` (models.py lines 252-256) carries
`username: max_length=50, regex=r"^[A-Za-z0-9_-]+$"` and
`email: max_length=255,
regex=r"^[a-zA-Z0-9_.+-]+@[a-zA-Z0-9-]+\.[a-zA-Z0-9-.]+$"`; the same
email regex appears on `AdminUser.email` (line 122). -/

/-- The character class `[A-Za-z0-9_-]` of the admin-username regex. -/
def adminNameClass (c : Char) : Bool :=
  isAlphaCh c || isDigitCh c || c = '_' || c = '-'

/-- Acceptance of `AdminUserCreate.username`: `max_length=50` together
with the anchored regex `^[A-Za-z0-9_-]+$` (nonempty, all characters
in the class). -/
def adminUsernameOk (s : String) : Bool :=
  s.length ≤ 50 && decide (s.toList ≠ []) && s.toList.all adminNameClass

/-- The local-part class `[a-zA-Z0-9_.+-]` of the email regex. -/
def localClass (c : Char) : Bool :=
  isAlphaCh c || isDigitCh c || c = '_' || c = '.' || c = '+' || c = '-'

/-- The first-label class `[a-zA-Z0-9-]` of the email regex. -/
def labelClass (c : Char) : Bool := isAlphaCh c || isDigitCh c || c = '-'

/-- The domain-tail class `[a-zA-Z0-9-.]` of the email regex. -/
def domTailClass (c : Char) : Bool :=
  isAlphaCh c || isDigitCh c || c = '-' || c = '.'

/-- Matcher for `^[a-zA-Z0-9_.+-]+@[a-zA-Z0-9-]+\.[a-zA-Z0-9-.]+$`.
Because the at-sign is outside the local class and the dot is outside
the first-label class, the regex is deterministic: the local part is
the maximal local-class run (which must be nonempty and followed by
the at-sign), the first label is the maximal label-class run after it
(nonempty, followed by a literal dot), and the remainder must be a
nonempty run of domain-tail characters. -/
def emailMatches (s : String) : Bool :=
  match (s.toList).dropWhile localClass with
  | a :: d =>
    a = '@' &&
    (match d.dropWhile labelClass with
     | b :: t =>
       b = '.' && decide ((s.toList).takeWhile localClass ≠ []) &&
       decide (d.takeWhile labelClass ≠ []) && decide (t ≠ []) &&
       t.all domTailClass
     | [] => false)
  | [] => false

/-- Acceptance of `AdminUserCreate.email`: `max_length=255` together
with the email regex. -/
def adminEmailOk (s : String) : Bool := s.length ≤ 255 && emailMatches s

/-- The email acceptance rule exactly as claim C6 words it: the string
has the shape local at-sign domain with a nonempty local part and at
least one dot somewhere in the domain part.  Stated for comparison
with the regex actually in the source, which further constrains the
character classes and requires a nonempty label before the first dot
of the domain and a nonempty tail after it. -/
def claimC6EmailShape (s : String) : Prop :=
  ∃ l d : String, s = l ++ "@" ++ d ∧ l ≠ "" ∧ '.' ∈ d.toList

/-- The OS-username acceptance rule exactly as claim C2 words it: the
string starts with a lowercase LETTER (underscore not included in the
head position), continues with lowercase letters, digits, underscore
or hyphen, optionally ends with a single dollar sign, and has length
at most 32.  Stated for comparison with the regex actually in the
source, whose head class is `[a-z_]`. -/
def claimC2UsernameOk (s : String) : Bool :=
  s.length ≤ 32 &&
  match s.toList with
  | [] => false
  | c :: cs => isLowerAlpha c && sysNameTail cs

/-! ## Password rules

`AdminUserCreate.password` (models.py line 255) carries
`min_length=8, max_length=128`; `SystemUserCreate.password` (line 232)
is `Optional`, `default=None, max_length=128`, with no minimum;
`PasswordResetRequest` (lines 242-244) carries
`min_length=8, max_length=128` on both fields. -/

/-- Acceptance of `AdminUserCreate.password`: between 8 and 128
characters. -/
def adminPasswordOk (s : String) : Bool := 8 ≤ s.length && s.length ≤ 128

/-- Acceptance of `SystemUserCreate.password`: absent, or at most 128
characters; no minimum length is declared. -/
def systemUserPasswordOk : Option String → Bool
  | none => true
  | some s => s.length ≤ 128

/-- The ways a password-reset request can be rejected.  The two length
bounds are the source's field constraints; the mismatch rejection is
the spec's `PasswordMismatch`. -/
inductive PasswordResetViolation where
  | fieldLength : PasswordResetViolation
  | passwordMismatch : PasswordResetViolation
deriving DecidableEq

/-- Modelled from the spec: the source's `PasswordResetRequest`
declares only the per-field length bounds ( min_length=8,
max_length=128 on `new_password` and `confirm_password`); the spec
additionally requires the two submitted values to be equal, rejected
otherwise as `PasswordMismatch` (spec sections 4.3 and 8).  The
validation result is the list of violations; acceptance is an empty
list. -/
def passwordResetViolations (new_password confirm_password : String) :
    List PasswordResetViolation :=
  (if 8 ≤ new_password.length ∧ new_password.length ≤ 128 then []
   else [PasswordResetViolation.fieldLength]) ++
  (if 8 ≤ confirm_password.length ∧ confirm_password.length ≤ 128 then []
   else [PasswordResetViolation.fieldLength]) ++
  (if new_password = confirm_password then []
   else [PasswordResetViolation.passwordMismatch])

/-- A password-reset request is accepted when it has no violations. -/
def passwordResetOk (new_password confirm_password : String) : Bool :=
  (passwordResetViolations new_password confirm_password).isEmpty

/-! ## System metrics

`SystemMetricCreate` (models.py lines 212-222) bounds the three
percentage fields to `ge=0.0, le=100.0` and the remaining seven fields
to `ge=0.0`.  The persistent `SystemMetric` entity (lines 35-51)
declares the same ten numeric fields with no `ge`/`le` bounds at all
(only decimal display precision).  Decimal values are embedded as
rationals. -/

/-- The request schema for recording a metric sample (models.py lines
212-222). -/
structure SystemMetricCreate where
  cpu_usage_percent : ℚ
  memory_usage_percent : ℚ
  memory_total_gb : ℚ
  memory_used_gb : ℚ
  disk_usage_percent : ℚ
  disk_total_gb : ℚ
  disk_used_gb : ℚ
  load_average_1min : ℚ
  load_average_5min : ℚ
  load_average_15min : ℚ

/-- The validation declared on `SystemMetricCreate`: percentages in
[0, 100], all other fields nonnegative.  No relation between used and
total is declared. -/
def systemMetricCreateOk (m : SystemMetricCreate) : Bool :=
  0 ≤ m.cpu_usage_percent && m.cpu_usage_percent ≤ 100 &&
  (0 ≤ m.memory_usage_percent && m.memory_usage_percent ≤ 100) &&
  (0 ≤ m.memory_total_gb) && (0 ≤ m.memory_used_gb) &&
  (0 ≤ m.disk_usage_percent && m.disk_usage_percent ≤ 100) &&
  (0 ≤ m.disk_total_gb) && (0 ≤ m.disk_used_gb) &&
  (0 ≤ m.load_average_1min) && (0 ≤ m.load_average_5min) &&
  (0 ≤ m.load_average_15min)

/-- A metric sample that is within every declared bound yet reports
more memory used than the total: the schema accepts it. -/
def overfullMetric : SystemMetricCreate :=
  { cpu_usage_percent := 50, memory_usage_percent := 50,
    memory_total_gb := 8, memory_used_gb := 10,
    disk_usage_percent := 50, disk_total_gb := 100, disk_used_gb := 20,
    load_average_1min := 1, load_average_5min := 1,
    load_average_15min := 1 }

/-- The persistent `SystemMetric` entity (models.py lines 35-51):
the same ten numeric fields, stored without any range constraint.
Timestamps are embedded as integers. -/
structure SystemMetric where
  id : Option Int := none
  timestamp : Int
  cpu_usage_percent : ℚ
  memory_usage_percent : ℚ
  memory_total_gb : ℚ
  memory_used_gb : ℚ
  disk_usage_percent : ℚ
  disk_total_gb : ℚ
  disk_used_gb : ℚ
  load_average_1min : ℚ
  load_average_5min : ℚ
  load_average_15min : ℚ

/-- The numeric payload of a stored metric row, viewed through the
request schema, for comparing the two rule sets. -/
def SystemMetric.toCreate (m : SystemMetric) : SystemMetricCreate :=
  { cpu_usage_percent := m.cpu_usage_percent,
    memory_usage_percent := m.memory_usage_percent,
    memory_total_gb := m.memory_total_gb,
    memory_used_gb := m.memory_used_gb,
    disk_usage_percent := m.disk_usage_percent,
    disk_total_gb := m.disk_total_gb,
    disk_used_gb := m.disk_used_gb,
    load_average_1min := m.load_average_1min,
    load_average_5min := m.load_average_5min,
    load_average_15min := m.load_average_15min }

/-- A stored metric row carrying a CPU percentage of 999.99 and a
negative memory total: the entity declaration admits it, since the
[0, 100] and nonnegativity bounds live only on `SystemMetricCreate`. -/
def outOfRangeMetric : SystemMetric :=
  { timestamp := 0, cpu_usage_percent := 999.99,
    memory_usage_percent := 50, memory_total_gb := -1,
    memory_used_gb := 4, disk_usage_percent := 50,
    disk_total_gb := 100, disk_used_gb := 20,
    load_average_1min := 1, load_average_5min := 1,
    load_average_15min := 1 }

/-! ## Admin sessions

`AdminSession` (models.py lines 143-156) stores the session
identifier, owner, addresses, `created_at`, `last_activity`,
`expires_at` and `is_active`.  Timestamps are embedded as integers
(seconds). -/

/-- The persistent `AdminSession` entity (models.py lines 143-156). -/
structure AdminSession where
  id : Option Int := none
  session_id : String
  admin_user_id : Int
  ip_address : String
  user_agent : String
  created_at : Int
  last_activity : Int
  expires_at : Int
  is_active : Bool := true

/-- Modelled from the spec: the source declares only the session
fields; the validation rule is the spec's invariant that a session is
usable iff `is_active` and the current time is strictly before
`expires_at` (spec sections 3 and 4.1). -/
def sessionIsValid (s : AdminSession) (now : Int) : Bool :=
  s.is_active && decide (now < s.expires_at)

/-- A concrete active session expiring at time 3600. -/
def sampleSession : AdminSession :=
  { session_id := "3f2a", admin_user_id := 1, ip_address := "127.0.0.1",
    user_agent := "cli", created_at := 0, last_activity := 0,
    expires_at := 3600, is_active := true }

/-! ## Service status enumeration

`ServiceStatus` (models.py lines 9-14) is a string-valued enum with
exactly five members; `SystemService.status` (line 100) is typed by
it. -/

/-- The `ServiceStatus` enum (models.py lines 9-14). -/
inductive ServiceStatus where
  | active : ServiceStatus
  | inactive : ServiceStatus
  | failed : ServiceStatus
  | disabled : ServiceStatus
  | unknown : ServiceStatus
deriving DecidableEq

/-- The string value of each enum member. -/
def ServiceStatus.toStr : ServiceStatus → String
  | ServiceStatus.active => "active"
  | ServiceStatus.inactive => "inactive"
  | ServiceStatus.failed => "failed"
  | ServiceStatus.disabled => "disabled"
  | ServiceStatus.unknown => "unknown"

/-- Enum lookup by value, as Python performs when a string enters a
`ServiceStatus`-typed field: exactly the five declared values
succeed. -/
def ServiceStatus.ofStr (s : String) : Option ServiceStatus :=
  if s = "active" then some ServiceStatus.active
  else if s = "inactive" then some ServiceStatus.inactive
  else if s = "failed" then some ServiceStatus.failed
  else if s = "disabled" then some ServiceStatus.disabled
  else if s = "unknown" then some ServiceStatus.unknown
  else none

/-- The persistent `SystemService` entity (models.py lines 91-112);
its `status` field is typed by the `ServiceStatus` enum.  The
free-form configuration dictionary is embedded as a key/value list. -/
structure SystemService where
  id : Option Int := none
  service_name : String
  display_name : Option String := none
  description : Option String := none
  status : ServiceStatus := ServiceStatus.unknown
  is_enabled : Bool := false
  is_active : Bool := false
  main_pid : Option Int := none
  memory_usage_bytes : Option Int := none
  cpu_usage_percent : Option ℚ := none
  last_started : Option Int := none
  last_updated : Int
  restart_count : Int := 0
  unit_file_path : Option String := none
  service_config : List (String × String) := []

/-! ## Audit log creation

`ActionType` (models.py lines 17-25) and `ActionStatus` (lines 28-31)
are string enums; `AuditLogCreate` (lines 315-324) defaults
`action_status` to `ActionStatus.SUCCESS`, as does the persistent
`AuditLog.action_status` (line 172). -/

/-- The `ActionType` enum (models.py lines 17-25). -/
inductive ActionType where
  | service_start : ActionType
  | service_stop : ActionType
  | service_restart : ActionType
  | user_create : ActionType
  | user_delete : ActionType
  | password_reset : ActionType
  | login : ActionType
  | logout : ActionType
deriving DecidableEq

/-- The `ActionStatus` enum (models.py lines 28-31). -/
inductive ActionStatus where
  | success : ActionStatus
  | failed : ActionStatus
  | in_progress : ActionStatus
deriving DecidableEq

/-- The `AuditLogCreate` request schema (models.py lines 315-324),
with the source's field defaults.  The free-form context dictionary is
embedded as a key/value list. -/
structure AuditLogCreate where
  action_type : ActionType
  action_status : ActionStatus := ActionStatus.success
  resource_name : Option String := none
  ip_address : String
  user_agent : Option String := none
  command_executed : Option String := none
  error_message : Option String := none
  execution_time_ms : Option Int := none
  context_data : List (String × String) := []

/-- An `AuditLogCreate` built from only the required fields
(`action_type`, `ip_address`), every optional field left to its
declared default. -/
def AuditLogCreate.mkDefault (t : ActionType) (ip : String) : AuditLogCreate :=
  { action_type := t, ip_address := ip }

end AdminPanel

/-! ## Theorems -/

namespace AdminPanel

/-- Structural characterization of the regex suffix `[a-z0-9_-]*[$]?$`:
the matcher accepts exactly the lists that split into a run of body
characters followed by an empty suffix or a single dollar sign. -/
theorem sysNameTail_iff (cs : List Char) :
    sysNameTail cs = true ↔
      ∃ body sfx, cs = body ++ sfx ∧ (∀ c ∈ body, sysNameBody c = true) ∧
        (sfx = [] ∨ sfx = ['$']) := by
  induction cs with
  | nil =>
    constructor
    · intro _; exact ⟨[], [], rfl, by simp, Or.inl rfl⟩
    · intro _; rfl
  | cons c cs ih =>
    constructor
    · intro h
      rw [sysNameTail] at h
      by_cases hb : sysNameBody c = true
      · rw [if_pos hb] at h
        obtain ⟨body, sfx, hcs, hall, hsfx⟩ := ih.mp h
        refine ⟨c :: body, sfx, by simp [hcs], ?_, hsfx⟩
        intro d hd
        rcases List.mem_cons.mp hd with hd | hd
        · exact hd ▸ hb
        · exact hall d hd
      · rw [if_neg hb] at h
        have h' : c = '$' ∧ cs = [] := by
          simpa [Bool.and_eq_true] using h
        exact ⟨[], ['$'], by simp [h'.1, h'.2], by simp, Or.inr rfl⟩
    · rintro ⟨body, sfx, hcs, hall, hsfx⟩
      cases body with
      | nil =>
        rcases hsfx with hs | hs
        · simp [hs] at hcs
        · subst hs
          simp only [List.nil_append, List.cons.injEq] at hcs
          obtain ⟨hc, hcs'⟩ := hcs
          subst hc; subst hcs'
          decide
      | cons b body' =>
        simp only [List.cons_append, List.cons.injEq] at hcs
        obtain ⟨hc, hcs'⟩ := hcs
        have hb : sysNameBody c = true := hc ▸ hall b (List.mem_cons_self b body')
        rw [sysNameTail, if_pos hb]
        exact ih.mpr ⟨body', sfx, hcs', fun d hd => hall d (List.mem_cons_of_mem b hd), hsfx⟩

/-- C4: a service action request accepts a string as the action iff it
is one of exactly start, stop, restart, enable, disable; every other
string is rejected as UnknownAction rather than passed through. -/
theorem c4_service_action_closed (a : String) :
    (validateServiceAction a = Except.ok a ↔
      (a = "start" ∨ a = "stop" ∨ a = "restart" ∨ a = "enable" ∨ a = "disable")) ∧
    (¬ (a = "start" ∨ a = "stop" ∨ a = "restart" ∨ a = "enable" ∨ a = "disable") →
      validateServiceAction a = Except.error ServiceActionError.unknownAction) := by
  have hmem : serviceActionMatches a = true ↔
      (a = "start" ∨ a = "stop" ∨ a = "restart" ∨ a = "enable" ∨ a = "disable") := by
    simp [serviceActionMatches, serviceActions, List.contains, List.elem_eq_mem, or_assoc]
  constructor
  · constructor
    · intro h
      by_cases hm : serviceActionMatches a = true
      · exact hmem.mp hm
      · simp [validateServiceAction, hm] at h
    · intro h
      simp [validateServiceAction, hmem.mpr h]
  · intro h
    have hm : ¬ serviceActionMatches a = true := fun hc => h (hmem.mp hc)
    simp [validateServiceAction, hm]

/-- Witness for C4: "restart" is accepted, and "reload" is rejected as
UnknownAction. -/
theorem c4_service_action_closed_witness :
    validateServiceAction "restart" = Except.ok "restart" ∧
    validateServiceAction "reload" = Except.error ServiceActionError.unknownAction := by
  refine ⟨(c4_service_action_closed "restart").1.mpr (by decide), ?_⟩
  exact (c4_service_action_closed "reload").2 (by decide)

/-- Counterexample to C2 as stated: the regex head class in the source
is `[a-z_]`, so the string "_svc" (leading underscore) is accepted by
`SystemUserCreate`, while the claim, which demands a lowercase-letter
start, predicts rejection: the stated equivalence fails at "_svc". -/
theorem c2_username_counterexample :
    ¬ (systemUserCreateUsernameOk "_svc" = true ↔ claimC2UsernameOk "_svc" = true) := by
  decide

/-- C2 (amended): SystemUserCreate accepts a username iff its length is
at most 32 and it consists of a first character that is a lowercase
letter OR an underscore, then lowercase letters, digits, underscore or
hyphen, optionally ended by a single dollar sign; in particular
"Admin User" is rejected. -/
theorem c2_username_amended (s : String) :
    (systemUserCreateUsernameOk s = true ↔
      s.length ≤ 32 ∧
      ∃ (c : Char) (body sfx : List Char),
        s.toList = c :: (body ++ sfx) ∧
        (isLowerAlpha c = true ∨ c = '_') ∧
        (∀ d ∈ body, (isLowerAlpha d || isDigitCh d || d = '_' || d = '-') = true) ∧
        (sfx = [] ∨ sfx = ['$'])) ∧
    systemUserCreateUsernameOk "Admin User" = false := by
  refine ⟨?_, by decide⟩
  rw [systemUserCreateUsernameOk, Bool.and_eq_true, decide_eq_true_eq]
  constructor
  · rintro ⟨hlen, hm⟩
    refine ⟨hlen, ?_⟩
    rw [sysUsernameMatches] at hm
    cases hs : s.toList with
    | nil => rw [hs] at hm; exact absurd hm (by decide)
    | cons c cs =>
      rw [hs, Bool.and_eq_true] at hm
      obtain ⟨hhead, htail⟩ := hm
      obtain ⟨body, sfx, hcs, hall, hsfx⟩ := (sysNameTail_iff cs).mp htail
      refine ⟨c, body, sfx, by simp [hs, hcs], ?_, ?_, hsfx⟩
      · simpa [sysNameHead, Bool.or_eq_true, decide_eq_true_eq] using hhead
      · intro d hd
        simpa [sysNameBody] using hall d hd
  · rintro ⟨hlen, c, body, sfx, hlist, hhead, hbody, hsfx⟩
    refine ⟨hlen, ?_⟩
    rw [sysUsernameMatches, hlist, Bool.and_eq_true]
    constructor
    · rcases hhead with h | h <;> simp [sysNameHead, h]
    · exact (sysNameTail_iff _).mpr
        ⟨body, sfx, rfl, fun d hd => by simpa [sysNameBody] using hbody d hd, hsfx⟩

/-- Witness for C2 (amended): "web-svc$" is accepted, via the amended
characterization with the explicit decomposition. -/
theorem c2_username_amended_witness :
    systemUserCreateUsernameOk "web-svc$" = true :=
  ((c2_username_amended "web-svc$").1).mpr
    ⟨by decide, 'w', ['e', 'b', '-', 's', 'v', 'c'], ['$'],
      by decide, Or.inl (by decide), by decide, Or.inr rfl⟩

/-- If `dropWhile p` returns a nonempty list, its head fails `p`. -/
theorem dropWhile_head_neg (p : Char → Bool) (cs : List Char) :
    ∀ c rest, cs.dropWhile p = c :: rest → p c = false := by
  induction cs with
  | nil => intro c rest h; simp [List.dropWhile] at h
  | cons a as ih =>
    intro c rest h
    rw [List.dropWhile_cons] at h
    by_cases ha : p a = true
    · rw [if_pos ha] at h
      exact ih c rest h
    · rw [if_neg ha] at h
      obtain ⟨h1, _⟩ := List.cons.injEq a as c rest ▸ h
      rw [← h1]
      exact Bool.not_eq_true _ ▸ ha

/-- `takeWhile` and `dropWhile` split `l ++ r` exactly at the boundary
when every element of `l` satisfies `p` and the head of `r` (if any)
does not. -/
theorem takeWhile_dropWhile_split (p : Char → Bool) (l r : List Char)
    (hl : ∀ c ∈ l, p c = true)
    (hr : ∀ c rest, r = c :: rest → p c = false) :
    (l ++ r).takeWhile p = l ∧ (l ++ r).dropWhile p = r := by
  induction l with
  | nil =>
    simp only [List.nil_append]
    cases r with
    | nil => simp
    | cons c rest =>
      have hc := hr c rest rfl
      simp [List.takeWhile_cons, List.dropWhile_cons, hc]
  | cons a l ih =>
    have ha : p a = true := hl a (List.mem_cons_self a l)
    have ih' := ih fun c hc => hl c (List.mem_cons_of_mem a hc)
    simp [List.cons_append, List.takeWhile_cons, List.dropWhile_cons, ha,
      ih'.1, ih'.2]

/-- Counterexample to C6 as stated: "a@." has the shape local at-sign
domain with a dot in the domain (local "a", domain "."), yet the email
regex rejects it, because the regex additionally demands a nonempty
`[a-zA-Z0-9-]+` label before the first domain dot and a nonempty tail
after it: the stated equivalence fails at "a@.". -/
theorem c6_email_counterexample :
    ¬ (adminEmailOk "a@." = true ↔ claimC6EmailShape "a@.") := by
  intro h
  have hshape : claimC6EmailShape "a@." :=
    ⟨"a", ".", by decide, by decide, by decide⟩
  have : adminEmailOk "a@." = true := h.mpr hshape
  exact absurd this (by decide)

/-- C6 (amended): AdminUserCreate accepts the username iff it is a
nonempty string over the class letters, digits, underscore, hyphen of
length at most 50; it accepts the email iff its length is at most 255
and it decomposes as a nonempty run of local-part characters, an
at-sign, a nonempty run of label characters, a dot, and a nonempty run
of domain-tail characters. -/
theorem c6_admin_user_create_amended (u e : String) :
    (adminUsernameOk u = true ↔
      u.length ≤ 50 ∧ u.toList ≠ [] ∧
        ∀ c ∈ u.toList,
          (isAlphaCh c || isDigitCh c || c = '_' || c = '-') = true) ∧
    (adminEmailOk e = true ↔
      e.length ≤ 255 ∧
      ∃ l lab t : List Char,
        e.toList = l ++ '@' :: (lab ++ '.' :: t) ∧
        l ≠ [] ∧ (∀ c ∈ l, localClass c = true) ∧
        lab ≠ [] ∧ (∀ c ∈ lab, labelClass c = true) ∧
        t ≠ [] ∧ (∀ c ∈ t, domTailClass c = true)) := by
  constructor
  · rw [adminUsernameOk]
    simp only [Bool.and_eq_true, decide_eq_true_eq, List.all_eq_true,
      adminNameClass, and_assoc]
  · rw [adminEmailOk, Bool.and_eq_true, decide_eq_true_eq]
    constructor
    · rintro ⟨hlen, hm⟩
      refine ⟨hlen, ?_⟩
      cases h1 : (e.toList).dropWhile localClass with
      | nil => rw [emailMatches, h1] at hm; simp at hm
      | cons a d =>
        rw [emailMatches, h1] at hm
        simp only [Bool.and_eq_true, decide_eq_true_eq] at hm
        obtain ⟨ha, hm⟩ := hm
        cases h2 : d.dropWhile labelClass with
        | nil => rw [h2] at hm; simp at hm
        | cons b t =>
          rw [h2] at hm
          simp only [Bool.and_eq_true, decide_eq_true_eq,
            List.all_eq_true] at hm
          obtain ⟨⟨⟨⟨hb, hlne⟩, hlabne⟩, htne⟩, htail⟩ := hm
          refine ⟨(e.toList).takeWhile localClass, d.takeWhile labelClass, t,
            ?_, hlne, ?_, hlabne, ?_, htne, htail⟩
          · have hsplit1 := List.takeWhile_append_dropWhile
              (p := localClass) (l := e.toList)
            have hsplit2 := List.takeWhile_append_dropWhile
              (p := labelClass) (l := d)
            rw [h1, ha] at hsplit1
            rw [h2, hb] at hsplit2
            rw [hsplit2]
            exact hsplit1.symm
          · intro c hc
            exact List.mem_takeWhile_imp hc
          · intro c hc
            exact List.mem_takeWhile_imp hc
    · rintro ⟨hlen, l, lab, t, hsplit, hlne, hlocal, hlabne, hlabel, htne, htail⟩
      refine ⟨hlen, ?_⟩
      have houter := takeWhile_dropWhile_split localClass l ('@' :: (lab ++ '.' :: t))
        hlocal (by rintro c rest ⟨rfl, rfl⟩; decide)
      have hinner := takeWhile_dropWhile_split labelClass lab ('.' :: t)
        hlabel (by rintro c rest ⟨rfl, rfl⟩; decide)
      rw [emailMatches, hsplit, houter.2]
      dsimp only
      rw [hinner.2]
      dsimp only
      simp only [Bool.and_eq_true, decide_eq_true_eq, List.all_eq_true]
      refine ⟨trivial, ⟨⟨⟨trivial, ?_⟩, ?_⟩, htne⟩, htail⟩
      · rw [houter.1]
        exact hlne
      · rw [hinner.1]
        exact hlabne

/-- Witness for C6 (amended): "ops-1" is accepted as username and
"ops@example.com" as email, via the amended characterization. -/
theorem c6_admin_user_create_amended_witness :
    adminUsernameOk "ops-1" = true ∧ adminEmailOk "ops@example.com" = true := by
  constructor
  · exact (c6_admin_user_create_amended "ops-1" "ops@example.com").1.mpr
      ⟨by decide, by decide, by decide⟩
  · exact (c6_admin_user_create_amended "ops-1" "ops@example.com").2.mpr
      ⟨by decide, ['o', 'p', 's'], ['e', 'x', 'a', 'm', 'p', 'l', 'e'],
        ['c', 'o', 'm'], by decide, by decide, by decide, by decide,
        by decide, by decide, by decide⟩

/-- C1: a session is valid iff `is_active` holds and the current time
is strictly before `expires_at`; for an active session, validation one
second before expiry succeeds and one second after expiry fails. -/
theorem c1_session_validity (s : AdminSession) (now : Int) :
    (sessionIsValid s now = true ↔ s.is_active = true ∧ now < s.expires_at) ∧
    (s.is_active = true →
      sessionIsValid s (s.expires_at - 1) = true ∧
      sessionIsValid s (s.expires_at + 1) = false) := by
  constructor
  · simp [sessionIsValid, Bool.and_eq_true, decide_eq_true_eq]
  · intro h
    refine ⟨?_, ?_⟩ <;> simp [sessionIsValid, h]

/-- Witness for C1: the sample active session expiring at 3600 is
valid at 3599 and invalid at 3601. -/
theorem c1_session_validity_witness :
    sessionIsValid sampleSession (sampleSession.expires_at - 1) = true ∧
    sessionIsValid sampleSession (sampleSession.expires_at + 1) = false :=
  (c1_session_validity sampleSession 0).2 rfl

/-- Acceptance of a password-reset request, characterized: both fields
between 8 and 128 characters and the two values equal. -/
theorem passwordResetOk_iff (n c : String) :
    passwordResetOk n c = true ↔
      (8 ≤ n.length ∧ n.length ≤ 128) ∧
      (8 ≤ c.length ∧ c.length ≤ 128) ∧ n = c := by
  rw [passwordResetOk, passwordResetViolations]
  split_ifs with h1 h2 h3 <;> simp_all

/-- C3: password-reset validation demands at least 8 characters in
both submitted values, registers a PasswordMismatch violation whenever
the two values differ, and in particular rejects the pair abcd1234 /
abcd1235 with PasswordMismatch. -/
theorem c3_password_reset (n c : String) :
    (passwordResetOk n c = true → 8 ≤ n.length ∧ 8 ≤ c.length) ∧
    (n ≠ c →
      PasswordResetViolation.passwordMismatch ∈ passwordResetViolations n c) ∧
    (passwordResetOk "abcd1234" "abcd1235" = false ∧
      PasswordResetViolation.passwordMismatch ∈
        passwordResetViolations "abcd1234" "abcd1235") := by
  refine ⟨?_, ?_, by decide, by decide⟩
  · intro h
    have hc := (passwordResetOk_iff n c).mp h
    exact ⟨hc.1.1, hc.2.1.1⟩
  · intro h
    rw [passwordResetViolations]
    simp [h]

/-- Witness for C3: two differing nine-character values register a
PasswordMismatch violation. -/
theorem c3_password_reset_witness :
    PasswordResetViolation.passwordMismatch ∈
      passwordResetViolations "Secret123" "Secret124" :=
  (c3_password_reset "Secret123" "Secret124").2.1 (by decide)

/-- C5: a metric-creation payload is accepted iff every percentage
field lies in [0, 100] and every other numeric field is nonnegative;
used at most total is not required, witnessed by an accepted payload
with more memory used than total. -/
theorem c5_metric_create_ranges :
    (∀ m : SystemMetricCreate,
      systemMetricCreateOk m = true ↔
        (0 ≤ m.cpu_usage_percent ∧ m.cpu_usage_percent ≤ 100) ∧
        (0 ≤ m.memory_usage_percent ∧ m.memory_usage_percent ≤ 100) ∧
        0 ≤ m.memory_total_gb ∧ 0 ≤ m.memory_used_gb ∧
        (0 ≤ m.disk_usage_percent ∧ m.disk_usage_percent ≤ 100) ∧
        0 ≤ m.disk_total_gb ∧ 0 ≤ m.disk_used_gb ∧
        0 ≤ m.load_average_1min ∧ 0 ≤ m.load_average_5min ∧
        0 ≤ m.load_average_15min) ∧
    (systemMetricCreateOk overfullMetric = true ∧
      overfullMetric.memory_total_gb < overfullMetric.memory_used_gb) := by
  refine ⟨?_, by decide, by decide⟩
  intro m
  rw [systemMetricCreateOk]
  simp only [Bool.and_eq_true, decide_eq_true_eq]
  tauto

/-- Witness for C5: the over-full payload satisfies the characterized
bounds, hence is accepted. -/
theorem c5_metric_create_ranges_witness :
    systemMetricCreateOk overfullMetric = true :=
  (c5_metric_create_ranges.1 overfullMetric).mpr (by decide)

/-- C7: every value of the `ServiceStatus` type renders to one of
exactly the five strings active, inactive, failed, disabled, unknown,
and enum lookup succeeds exactly on those five strings: no other value
can inhabit `SystemService.status` or pass through. -/
theorem c7_service_status_closed :
    (∀ svc : SystemService,
      svc.status.toStr = "active" ∨ svc.status.toStr = "inactive" ∨
      svc.status.toStr = "failed" ∨ svc.status.toStr = "disabled" ∨
      svc.status.toStr = "unknown") ∧
    (∀ s : String, (ServiceStatus.ofStr s).isSome = true ↔
      (s = "active" ∨ s = "inactive" ∨ s = "failed" ∨ s = "disabled" ∨
        s = "unknown")) := by
  constructor
  · intro svc
    cases hst : svc.status <;> simp [ServiceStatus.toStr]
  · intro s
    rw [ServiceStatus.ofStr]
    split_ifs with h1 h2 h3 h4 h5 <;> simp_all

/-- Witness for C7: the string "degraded" is not a `ServiceStatus`
value. -/
theorem c7_service_status_closed_witness :
    ¬ (ServiceStatus.ofStr "degraded").isSome = true :=
  fun h => absurd ((c7_service_status_closed.2 "degraded").mp h) (by decide)

/-- C8: an `AuditLogCreate` built without an explicit `action_status`
carries `SUCCESS`, never `FAILED` or `IN_PROGRESS`. -/
theorem c8_audit_default_success (t : ActionType) (ip : String) :
    (AuditLogCreate.mkDefault t ip).action_status = ActionStatus.success ∧
    (AuditLogCreate.mkDefault t ip).action_status ≠ ActionStatus.failed ∧
    (AuditLogCreate.mkDefault t ip).action_status ≠ ActionStatus.in_progress := by
  refine ⟨rfl, ?_, ?_⟩ <;> simp [AuditLogCreate.mkDefault]

/-- Witness for C8: a login audit entry built from only the required
fields records SUCCESS. -/
theorem c8_audit_default_success_witness :
    (AuditLogCreate.mkDefault ActionType.login "198.51.100.7").action_status =
      ActionStatus.success :=
  (c8_audit_default_success ActionType.login "198.51.100.7").1

/-- C9: an OS-level user creation payload may omit the password or
supply any string of at most 128 characters, the empty string
included; no minimum length applies, in contrast to the 8-character
minimum on admin-panel passwords. -/
theorem c9_system_password_unconstrained :
    (systemUserPasswordOk none = true) ∧
    (∀ s : String, systemUserPasswordOk (some s) = decide (s.length ≤ 128)) ∧
    (systemUserPasswordOk (some "") = true) ∧
    (∀ s : String, adminPasswordOk s = true → 8 ≤ s.length) := by
  refine ⟨rfl, fun s => rfl, rfl, ?_⟩
  intro s h
  rw [adminPasswordOk, Bool.and_eq_true] at h
  exact of_decide_eq_true h.1

/-- Witness for C9: the accepted admin password "longpassword" indeed
has at least 8 characters. -/
theorem c9_system_password_unconstrained_witness :
    (8 : ℕ) ≤ ("longpassword" : String).length :=
  c9_system_password_unconstrained.2.2.2 "longpassword" (by decide)

/-- C10: the persistent `SystemMetric` entity enforces no range
bounds: a stored row may carry a CPU percentage of 999.99 and a
negative memory total, values the `SystemMetricCreate` request schema
would reject. -/
theorem c10_metric_entity_no_bounds :
    (100 : ℚ) < outOfRangeMetric.cpu_usage_percent ∧
    outOfRangeMetric.memory_total_gb < 0 ∧
    systemMetricCreateOk outOfRangeMetric.toCreate = false := by
  refine ⟨?_, ?_, ?_⟩
  · norm_num [outOfRangeMetric]
  · norm_num [outOfRangeMetric]
  · simp only [systemMetricCreateOk, SystemMetric.toCreate, outOfRangeMetric]
    norm_num

end AdminPanel
